import Mathlib

/-!
Verification of `ekstra_streak_bot.py`: a shallow embedding of the bot
pure logic (streak fold, alert decision, retry loop, incremental fetch
filtering, state loading, and the control flow of `main`) together with
theorems checking the claims of the design document against it.

Conventions of the embedding:
* Python `str` is Lean `String`; Python string comparison and slicing are
  re-implemented over `String.data` (code-point lists), matching the
  CPython lexicographic semantics.
* Python `int` is Lean `Int`; `time.time()` readings are modelled as `Int`.
* Optional state keys (`state.get(...)`) are `Option` fields; Python
  truthiness of an optional string (`if s:`) is `pyTruthy`.
* Network effects are parameters: the sequence of HTTP responses, the JSON
  pages returned by the fixtures API, the per-candidate scrape outcomes, and
  whether the Telegram POST fails are all inputs to the embedded functions.
-/

set_option autoImplicit false

namespace EkstraStreak

/-- CPython-style lexicographic `<=` on code-point lists. -/
def pyListLe : List Char → List Char → Bool
  | [], _ => true
  | _ :: _, [] => false
  | a :: as, b :: bs =>
    if a.toNat < b.toNat then true
    else if a.toNat = b.toNat then pyListLe as bs
    else false

/-- CPython-style lexicographic `<` on code-point lists. -/
def pyListLt : List Char → List Char → Bool
  | _, [] => false
  | [], _ :: _ => true
  | a :: as, b :: bs =>
    if a.toNat < b.toNat then true
    else if a.toNat = b.toNat then pyListLt as bs
    else false

/-- Python `a <= b` on strings. -/
def pyStrLe (a b : String) : Bool := pyListLe a.data b.data

/-- Python `a < b` on strings. -/
def pyStrLt (a b : String) : Bool := pyListLt a.data b.data

/-- Python truthiness of an optional string (`None` and `""` are falsy). -/
def pyTruthy : Option String → Bool
  | none => false
  | some s => s ≠ ""

/-- Python slice `s[a:b]` by code points. -/
def pySlice (s : String) (a b : Nat) : String :=
  String.mk ((s.data.drop a).take (b - a))

/-- A finished-match record as built by the bot: the keys of the Python dict
`{"dt", "date", "time", "home", "away", "home_goals", "away_goals"}`. -/
structure MatchRecord where
  dt : String
  date : String
  time : String
  home : String
  away : String
  home_goals : Int
  away_goals : Int
deriving DecidableEq, Repr

/-- The persisted `state.json` document: every key the script reads or
writes, each optional because the dict may lack it. -/
structure BotState where
  last_checked_dt : Option String
  last_streak_len : Option Int
  last_notified_dt : Option String
  last_full_run_ts : Option Int
  apifootball_league_id : Option Int
deriving DecidableEq, Repr

/-- The empty dict `{}`. -/
def emptyState : BotState := ⟨none, none, none, none, none⟩

/-- One iteration of the loop body of `apply_new_matches_to_streak`
(src lines 310-316): a draw resets the accumulator, any other result
increments the streak and records the match. -/
def streakStep (acc : Int × Option MatchRecord) (m : MatchRecord) :
    Int × Option MatchRecord :=
  if m.home_goals = m.away_goals then (0, none) else (acc.1 + 1, some m)

/-- Model of `apply_new_matches_to_streak` (src lines 308-317): fold `streakStep`
over the match list starting from the prior streak and `last = None`. -/
def apply_new_matches_to_streak (streak : Int) (new_matches : List MatchRecord) :
    Int × Option MatchRecord :=
  new_matches.foldl streakStep (streak, none)

theorem foldl_streakStep_no_draws (ms : List MatchRecord) (s : Int)
    (h : ∀ m ∈ ms, m.home_goals ≠ m.away_goals) :
    ms.foldl streakStep (s, none) = (s + ms.length, ms.getLast?) := by
  induction ms using List.reverseRecOn with
  | nil => simp
  | append_singleton l a ih =>
    have hl : ∀ m ∈ l, m.home_goals ≠ m.away_goals := by
      intro m hm; exact h m (List.mem_append_left _ hm)
    have ha : a.home_goals ≠ a.away_goals := h a (by simp)
    rw [List.foldl_append, ih hl]
    simp [streakStep, ha, List.getLast?_concat]
    ring

/-- C1: `apply_new_matches_to_streak` is a left fold processing records in
list order; per record, a draw resets streak to zero and clears the last
reference, any other result increments the streak and points the reference
at that record; the empty list is the identity on the prior streak with no
reference; and a draw-free list gives streak = its length with the final
element as reference (from streak 0). -/
theorem streak_engine_fold_spec :
    (∀ s : Int, apply_new_matches_to_streak s [] = (s, none))
    ∧ (∀ (s : Int) (ms : List MatchRecord) (m : MatchRecord),
        apply_new_matches_to_streak s (ms ++ [m]) =
          if m.home_goals = m.away_goals then (0, none)
          else ((apply_new_matches_to_streak s ms).1 + 1, some m))
    ∧ (∀ ms : List MatchRecord, (∀ m ∈ ms, m.home_goals ≠ m.away_goals) →
        apply_new_matches_to_streak 0 ms = ((ms.length : Int), ms.getLast?)) := by
  refine ⟨fun s => rfl, fun s ms m => ?_, fun ms h => ?_⟩
  · simp [apply_new_matches_to_streak, List.foldl_append, streakStep]
  · have := foldl_streakStep_no_draws ms 0 h
    simpa [apply_new_matches_to_streak] using this

/-- A concrete non-draw match used in witnesses. -/
def matchA : MatchRecord :=
  ⟨"2024-08-01T18:00:00+00:00", "2024-08-01", "18:00", "Legia", "Lech", 2, 1⟩

/-- A second concrete non-draw match used in witnesses. -/
def matchB : MatchRecord :=
  ⟨"2024-08-02T20:30:00+00:00", "2024-08-02", "20:30", "Wisla", "Slask", 1, 0⟩

theorem streak_engine_fold_spec_witness :
    apply_new_matches_to_streak 0 [matchA, matchB] = (2, some matchB) := by
  have h := streak_engine_fold_spec.2.2 [matchA, matchB] (by decide)
  simpa using h

/-- Outcome of trying to open and JSON-parse the state file, the input space
of `load_state` (src lines 52-57): the file may be missing (open raises
`FileNotFoundError`), unreadable (open/read raises an `OSError`), hold
invalid JSON (`json.load` raises), or parse into a state document. -/
inductive FileReadOutcome where
  | missing
  | unreadable
  | invalidJson
  | parsed (st : BotState)
deriving DecidableEq, Repr

/-- Model of `load_state` (src lines 52-57): `try: return json.load(f) except
Exception: return {}` — every failure mode of opening or parsing the state
file yields the empty dict. -/
def load_state : FileReadOutcome → BotState
  | .missing => emptyState
  | .unreadable => emptyState
  | .invalidJson => emptyState
  | .parsed st => st

/-- C10: `load_state` is total over file-system outcomes: on a missing,
unreadable, or invalid-JSON state file it returns the empty state rather
than raising. -/
theorem load_state_total_on_errors :
    ∀ o : FileReadOutcome,
      o = .missing ∨ o = .unreadable ∨ o = .invalidJson →
      load_state o = emptyState := by
  intro o h
  rcases h with h | h | h <;> rw [h] <;> rfl

theorem load_state_total_on_errors_witness :
    load_state .missing = emptyState :=
  load_state_total_on_errors .missing (Or.inl rfl)

/-- What one call of `session.get` inside `http_get_with_retry` produces:
either a response with a status code, or a
`requests.RequestException` (identified by an arbitrary id). -/
inductive HttpAttempt where
  | status (code : Nat)
  | netError (eid : Nat)
deriving DecidableEq, Repr

/-- How `http_get_with_retry` terminates: a successful response from some
0-based attempt, a re-raise of the last recorded `RequestException` (which
is either a network error or the `HTTPError` that `raise_for_status` threw
for a non-200 status), or the final `RuntimeError`. -/
inductive RetryOutcome where
  | success (attempt : Nat)
  | raised (exc : HttpAttempt)
  | raisedRuntimeError
deriving DecidableEq, Repr

/-- The loop of `http_get_with_retry` (src lines 205-216), with the
responses of successive attempts given by `responses` and the remaining
iterations by `fuel` (initially `max_tries`). The second component records
the multipliers `i + 1` of the `time.sleep(backoff * (i + 1))` calls made,
in order. Semantics per attempt `i`:
* status 200 — return the response;
* status 403 or 429 — sleep and retry, leaving `last_exc` unchanged;
* any other status in 400-599 — `r.raise_for_status()` raises `HTTPError`,
  which the `except requests.RequestException` clause catches, so the loop
  records it as `last_exc`, sleeps, and retries;
* any other status — `raise_for_status` is a no-op and the loop moves on
  without sleeping;
* a network exception — caught, recorded, sleep, retry.
After the loop, the last exception is re-raised if any, else `RuntimeError`. -/
def http_retry_loop (responses : Nat → HttpAttempt) :
    Nat → Nat → Option HttpAttempt → List Nat → RetryOutcome × List Nat
  | 0, _, lastExc, sleeps =>
    match lastExc with
    | some e => (.raised e, sleeps)
    | none => (.raisedRuntimeError, sleeps)
  | fuel + 1, i, lastExc, sleeps =>
    match responses i with
    | .netError eid =>
      http_retry_loop responses fuel (i + 1) (some (.netError eid)) (sleeps ++ [i + 1])
    | .status code =>
      if code = 200 then (.success i, sleeps)
      else if code = 403 ∨ code = 429 then
        http_retry_loop responses fuel (i + 1) lastExc (sleeps ++ [i + 1])
      else if 400 ≤ code ∧ code < 600 then
        http_retry_loop responses fuel (i + 1) (some (.status code)) (sleeps ++ [i + 1])
      else
        http_retry_loop responses fuel (i + 1) lastExc sleeps

/-- Model of `http_get_with_retry` (src lines 203-219): run the retry loop from
attempt 0 with no recorded exception and no sleeps. -/
def http_get_with_retry (responses : Nat → HttpAttempt) (max_tries : Nat) :
    RetryOutcome × List Nat :=
  http_retry_loop responses max_tries 0 none []

/-- The sleep-multiplier sequence `i + 1, i + 2, ...` of length `n`. -/
def sleepSeq (i : Nat) : Nat → List Nat
  | 0 => []
  | n + 1 => (i + 1) :: sleepSeq (i + 1) n

/-- C5 counterexample: a 404 (a 4xx other than 429) on the first attempt
does not surface immediately as a fetch error — the loop sleeps and
retries, and the 200 of the second attempt is returned successfully. -/
theorem retry_404_not_immediate_cex :
    http_get_with_retry (fun i => if i = 0 then .status 404 else .status 200) 4 =
      (.success 1, [1]) := by
  rfl

theorem http_retry_loop_all_same_error (responses : Nat → HttpAttempt)
    (code : Nat) (h400 : 400 ≤ code) (h600 : code < 600)
    (h403 : code ≠ 403) (h429 : code ≠ 429) :
    ∀ (fuel i : Nat) (lastExc : Option HttpAttempt) (sleeps : List Nat),
      0 < fuel →
      (∀ j, j < fuel → responses (i + j) = .status code) →
      http_retry_loop responses fuel i lastExc sleeps =
        (.raised (.status code), sleeps ++ sleepSeq i fuel) := by
  intro fuel
  induction fuel with
  | zero => intro i lastExc sleeps h; omega
  | succ n ih =>
    intro i lastExc sleeps _ hresp
    have h0 : responses i = .status code := by
      have := hresp 0 (by omega)
      simpa using this
    have hne200 : code ≠ 200 := by omega
    rw [http_retry_loop, h0]
    simp only [hne200, if_false, h403, h429, or_self, h400, h600, and_self, if_true]
    rcases Nat.eq_zero_or_pos n with hn | hn
    · subst hn
      simp [http_retry_loop, sleepSeq]
    · have hrec := ih (i + 1) (some (.status code)) (sleeps ++ [i + 1]) hn
        (fun j hj => by
          have := hresp (j + 1) (by omega)
          simpa [Nat.add_assoc, Nat.add_comm 1 j] using this)
      rw [hrec]
      simp [sleepSeq]

/-- C5 amended: a non-retryable-looking HTTP status (any 4xx or 5xx other
than 403 and 429) does not surface immediately: `raise_for_status` throws a
`RequestException` that the loop catches, so the fetch retries up to the
attempt ceiling, sleeping `attempt_index * base_delay` (multipliers 1, 2,
...) after every failed attempt, and only after exhausting all `max_tries`
attempts re-raises the last such error. -/
theorem retry_exhausts_on_http_error (responses : Nat → HttpAttempt)
    (code max_tries : Nat) :
    400 ≤ code → code < 600 → code ≠ 403 → code ≠ 429 → 0 < max_tries →
    (∀ j, j < max_tries → responses j = .status code) →
    http_get_with_retry responses max_tries =
      (.raised (.status code), sleepSeq 0 max_tries) := by
  intro h400 h600 h403 h429 hpos hresp
  have := http_retry_loop_all_same_error responses code h400 h600 h403 h429
    max_tries 0 none [] hpos (fun j hj => by simpa using hresp j hj)
  simpa [http_get_with_retry] using this

theorem retry_exhausts_on_http_error_witness :
    http_get_with_retry (fun _ => .status 404) 4 =
      (.raised (.status 404), sleepSeq 0 4) :=
  retry_exhausts_on_http_error (fun _ => .status 404) 404 4
    (by decide) (by decide) (by decide) (by decide) (by decide)
    (fun j _ => rfl)

/-- One fixture item of an API-FOOTBALL `/fixtures` response: the fields
`api_fetch_fixtures_incremental` reads (`fixture.date`, team names,
`goals.home`, `goals.away`; goals are null until the match is played). -/
structure ApiFixture where
  fixture_date : String
  home_name : String
  away_name : String
  goals_home : Option Int
  goals_away : Option Int
deriving DecidableEq, Repr

/-- One page of the paginated `/fixtures` response: `paging.total` (as the
code reads it, defaulting to 1 when absent — absence is modelled as the
caller already substituting the default) and the `response` array. -/
structure ApiPage where
  paging_total : Nat
  response : List ApiFixture
deriving DecidableEq, Repr

/-- The match dict built at src lines 139-147: `dt` is the ISO date, `date`
is `dt_iso[:10]`, `time` is `dt_iso[11:16]`. -/
def mkApiRecord (item : ApiFixture) (hg ag : Int) : MatchRecord :=
  ⟨item.fixture_date, pySlice item.fixture_date 0 10,
   pySlice item.fixture_date 11 16, item.home_name, item.away_name, hg, ag⟩

/-- The per-item body of the fetch loop (src lines 129-147): drop the item
when a watermark is active (truthy and no force-rebuild) and
`dt_iso <= last_checked_dt`; drop it when either goal count is null;
otherwise build the match record. -/
def apiKeepItem (last_checked_dt : Option String) (force_rebuild : Bool)
    (item : ApiFixture) : Option MatchRecord :=
  if pyTruthy last_checked_dt && !force_rebuild &&
      pyStrLe item.fixture_date (last_checked_dt.getD "") then
    none
  else
    match item.goals_home, item.goals_away with
    | some hg, some ag => some (mkApiRecord item hg ag)
    | _, _ => none

/-- Stable insertion of a record into a dt-sorted list: the new record goes
after every existing record whose `dt` is `<=` its own. -/
def insertByDt (m : MatchRecord) : List MatchRecord → List MatchRecord
  | [] => [m]
  | x :: xs => if pyStrLe x.dt m.dt then x :: insertByDt m xs else m :: x :: xs

/-- Model of `matches.sort(key=lambda m: m["dt"])` (src line 150): the
Python sort is stable, and any stable sort by the same key produces the
same list, so a stable insertion sort is an extensionally faithful model. -/
def sortByDt (l : List MatchRecord) : List MatchRecord :=
  l.foldl (fun acc m => insertByDt m acc) []

/-- The `while page <= total_pages` loop of
`api_fetch_fixtures_incremental` (src lines 123-148). `pages n` is the
parsed response for `&page=n`; `total_pages` is re-read from each page as
`int(paging.get("total", 1)) or 1`. The source re-reads the bound each
iteration so its termination is data-dependent; `fuel` bounds the number of
iterations, and every theorem below holds for every fuel. -/
def apiFetchLoop (pages : Nat → ApiPage) (wm : Option String) (force : Bool) :
    Nat → Nat → Nat → List MatchRecord → List MatchRecord
  | 0, _, _, acc => acc
  | fuel + 1, page, total_pages, acc =>
    if page ≤ total_pages then
      let pr := pages page
      let tp := if pr.paging_total = 0 then 1 else pr.paging_total
      apiFetchLoop pages wm force fuel (page + 1) tp
        (acc ++ pr.response.filterMap (apiKeepItem wm force))
    else acc

/-- Model of `api_fetch_fixtures_incremental` (src lines 106-151): page through the
finished fixtures of the season, keep items passing the watermark and
goals-present filters, then sort by `dt`. -/
def api_fetch_fixtures_incremental (pages : Nat → ApiPage)
    (last_checked_dt : Option String) (force_rebuild : Bool) (fuel : Nat) :
    List MatchRecord :=
  sortByDt (apiFetchLoop pages last_checked_dt force_rebuild fuel 1 1 [])

/-- Fetch-plus-parse outcome for one scrape candidate URL: the attempt
either raised some exception (fetch error, parse error — identified by an
id) or produced a parsed match list. -/
inductive ScrapeTry where
  | failed (eid : Nat)
  | parsed (ms : List MatchRecord)
deriving DecidableEq, Repr

/-- How `fetch_all_matches_via_scrape_incremental` terminates: the first
candidate with a non-empty parse wins (its full list and URL are returned);
else the last exception is re-raised; else a `RuntimeError`. -/
inductive ScrapeResult where
  | ok (ms : List MatchRecord) (src : String)
  | raisedLast (eid : Nat)
  | raisedRuntimeError
deriving DecidableEq, Repr

/-- The candidate loop of `fetch_all_matches_via_scrape_incremental`
(src lines 285-303): try candidates in order, remembering the last
exception; skip empty parses; return the first non-empty parse with its
URL. -/
def scrapeLoop : List (String × ScrapeTry) → Option Nat → ScrapeResult
  | [], none => .raisedRuntimeError
  | [], some e => .raisedLast e
  | (_, .failed eid) :: rest, _ => scrapeLoop rest (some eid)
  | (url, .parsed ms) :: rest, lastErr =>
    if ms.isEmpty then scrapeLoop rest lastErr else .ok ms url

/-- Model of `fetch_all_matches_via_scrape_incremental` (src lines 280-303): the
`last_checked_dt` parameter is received but never consulted anywhere in the
body, exactly as in the source. -/
def fetch_all_matches_via_scrape_incremental (last_checked_dt : Option String)
    (candidates : List (String × ScrapeTry)) : ScrapeResult :=
  scrapeLoop candidates none

theorem pyListLt_of_not_le {a b : List Char} (h : pyListLe a b = false) :
    pyListLt b a = true := by
  induction a generalizing b with
  | nil => simp [pyListLe] at h
  | cons x xs ih =>
    cases b with
    | nil => simp [pyListLt]
    | cons y ys =>
      simp only [pyListLe] at h
      simp only [pyListLt]
      by_cases h1 : x.toNat < y.toNat
      · simp [h1] at h
      · by_cases h2 : x.toNat = y.toNat
        · simp [h1, h2] at h ⊢
          exact ih h
        · have h3 : y.toNat < x.toNat := by omega
          simp [h3]

theorem apiKeepItem_strictly_newer {w : String} {item : ApiFixture}
    {m : MatchRecord} (hw : w ≠ "")
    (h : apiKeepItem (some w) false item = some m) :
    pyStrLt w m.dt = true := by
  unfold apiKeepItem at h
  by_cases hle : pyStrLe item.fixture_date w = true
  · simp [pyTruthy, hw, hle] at h
  · have hfalse : pyStrLe item.fixture_date w = false := by
      simpa using hle
    have hdt : m.dt = item.fixture_date := by
      simp [pyTruthy, hw, hfalse] at h
      cases hh : item.goals_home with
      | none => rw [hh] at h; simp at h
      | some hg =>
        cases ha : item.goals_away with
        | none => rw [hh, ha] at h; simp at h
        | some ag =>
          rw [hh, ha] at h
          simp at h
          rw [← h]
          rfl
    rw [hdt]
    exact pyListLt_of_not_le hfalse

theorem mem_insertByDt {x m : MatchRecord} :
    ∀ l : List MatchRecord, x ∈ insertByDt m l ↔ x = m ∨ x ∈ l := by
  intro l
  induction l with
  | nil => simp [insertByDt]
  | cons y ys ih =>
    unfold insertByDt
    by_cases h : pyStrLe y.dt m.dt = true
    · simp [h, ih]
      tauto
    · simp [h]

theorem mem_sortByDt_fold {x : MatchRecord} :
    ∀ (l acc : List MatchRecord),
      x ∈ l.foldl (fun acc m => insertByDt m acc) acc ↔ x ∈ acc ∨ x ∈ l := by
  intro l
  induction l with
  | nil => simp
  | cons y ys ih =>
    intro acc
    rw [List.foldl_cons, ih, mem_insertByDt]
    simp
    tauto

theorem mem_sortByDt {x : MatchRecord} {l : List MatchRecord} :
    x ∈ sortByDt l ↔ x ∈ l := by
  unfold sortByDt
  rw [mem_sortByDt_fold]
  simp

theorem apiFetchLoop_strictly_newer (pages : Nat → ApiPage) (w : String)
    (hw : w ≠ "") :
    ∀ (fuel page tp : Nat) (acc : List MatchRecord),
      (∀ x ∈ acc, pyStrLt w x.dt = true) →
      ∀ m ∈ apiFetchLoop pages (some w) false fuel page tp acc,
        pyStrLt w m.dt = true := by
  intro fuel
  induction fuel with
  | zero => intro page tp acc hacc m hm; exact hacc m hm
  | succ n ih =>
    intro page tp acc hacc m hm
    rw [apiFetchLoop] at hm
    by_cases hp : page ≤ tp
    · simp only [hp, if_true] at hm
      refine ih _ _ _ ?_ m hm
      intro x hx
      rcases List.mem_append.mp hx with hx | hx
      · exact hacc x hx
      · rcases List.mem_filterMap.mp hx with ⟨item, _, hitem⟩
        exact apiKeepItem_strictly_newer hw hitem
    · simp only [hp, if_false] at hm
      exact hacc m hm

/-- C6: with a watermark supplied (a truthy string) and force-rebuild off,
the structured-api fetch returns only records strictly newer than the
watermark, for any page data and any number of loop iterations; the
scrape-based acquisition ignores the supplied watermark entirely (its
result is the same for any two watermarks), and the full parsed list
of its winning candidate is returned as-is. -/
theorem incremental_watermark_filter_spec :
    (∀ (pages : Nat → ApiPage) (fuel : Nat) (w : String), w ≠ "" →
      ∀ m ∈ api_fetch_fixtures_incremental pages (some w) false fuel,
        pyStrLt w m.dt = true)
    ∧ (∀ (w1 w2 : Option String) (c : List (String × ScrapeTry)),
        fetch_all_matches_via_scrape_incremental w1 c =
          fetch_all_matches_via_scrape_incremental w2 c)
    ∧ (∀ (w : Option String) (url : String) (ms : List MatchRecord)
        (rest : List (String × ScrapeTry)), ms ≠ [] →
        fetch_all_matches_via_scrape_incremental w ((url, .parsed ms) :: rest) =
          .ok ms url) := by
  refine ⟨?_, fun w1 w2 c => rfl, ?_⟩
  · intro pages fuel w hw m hm
    rw [api_fetch_fixtures_incremental, mem_sortByDt] at hm
    exact apiFetchLoop_strictly_newer pages w hw fuel 1 1 [] (by simp) m hm
  · intro w url ms rest hms
    rw [fetch_all_matches_via_scrape_incremental, scrapeLoop]
    simp [hms]

/-- Concrete page data for the C6 witness: page 1 of 1, holding one played
fixture older than the watermark, one newer, and one unplayed. -/
def pagesW : Nat → ApiPage := fun _ =>
  ⟨1, [⟨"2024-07-01T18:00:00+00:00", "Old", "Older", some 1, some 0⟩,
       ⟨"2024-08-02T20:30:00+00:00", "Wisla", "Slask", some 1, some 0⟩,
       ⟨"2024-08-09T20:30:00+00:00", "Unplayed", "Yet", none, none⟩]⟩

theorem incremental_watermark_filter_spec_witness :
    pyStrLt "2024-08-01"
      (mkApiRecord ⟨"2024-08-02T20:30:00+00:00", "Wisla", "Slask", some 1, some 0⟩ 1 0).dt
      = true ∧
    fetch_all_matches_via_scrape_incremental (some "2024-08-01")
      [("http://example", .parsed [matchA])] = .ok [matchA] "http://example" := by
  constructor
  · exact incremental_watermark_filter_spec.1 pagesW 3 "2024-08-01" (by decide)
      (mkApiRecord ⟨"2024-08-02T20:30:00+00:00", "Wisla", "Slask", some 1, some 0⟩ 1 0)
      (by decide)
  · exact incremental_watermark_filter_spec.2.2 (some "2024-08-01") "http://example"
      [matchA] [] (by decide)

/-- The configuration the script reads from the environment at import time
(src lines 18-31), plus presence flags for the credential variables. -/
structure Config where
  THRESHOLD : Int
  ALERT_MODE : String
  RUN_INTERVAL_MIN : Int
  DRY_RUN : Bool
  USE_SCRAPE_FALLBACK : Bool
  FORCE_REBUILD : Bool
  MAX_REASONABLE_STREAK : Int
  has_telegram_creds : Bool
  has_api_key : Bool
deriving DecidableEq, Repr

/-- The external effects observed by one run of `main`: the clock reading,
the combined outcome of league-id resolution plus the incremental fixtures
fetch (an exception id, or the fetched match list), whether the Telegram
POST would fail, and the outcome of the scrape fallback acquisition. -/
structure RunEnv where
  now : Int
  apiOutcome : Except Nat (List MatchRecord)
  sendFails : Bool
  scrapeOutcome : Except Nat (List MatchRecord × String)
deriving Repr

/-- What one run of `main` leaves behind: the final content of the state
file (the dict held by `main` at its last `save_state`), the number of
`send_telegram` invocations, and whether an exception escaped `main`. The
model covers the network and delivery failures enumerated in `RunEnv`;
file-write failures and the transient league-id cache write (which the
final `save_state` of the dict held by `main` overwrites) are outside it. -/
structure RunResult where
  file : BotState
  sends : Nat
  raised : Bool
deriving DecidableEq, Repr

/-- Model of `guard_min_interval` (src lines 63-74): skip the run when less than
`RUN_INTERVAL_MIN` minutes passed since the last full run. -/
def guard_min_interval (cfg : Config) (state : BotState) (now : Int) : Bool :=
  match state.last_full_run_ts with
  | none => false
  | some t => decide (now - t < cfg.RUN_INTERVAL_MIN * 60)

/-- Whether `send_telegram` (src lines 322-334) raises: only a real POST
can fail, and it is attempted only outside dry-run mode and with both
Telegram credentials present (otherwise the function prints and returns). -/
def send_telegram_raises (cfg : Config) (sendFails : Bool) : Bool :=
  !cfg.DRY_RUN && cfg.has_telegram_creds && sendFails

/-- The `should_notify` computation of `main` (src lines 398-405): nothing
fires without a last-match reference or below the threshold; at or above
it, `EACH` and any unrecognized mode fire when the `dt` of the last match
differs from the persisted `last_notified_dt`, and `THRESHOLD_ONLY` fires
when the previous streak was below the threshold. -/
def should_notify (cfg : Config) (streak : Int) (last : Option MatchRecord)
    (prev_streak : Int) (last_notified_dt : Option String) : Bool :=
  match last with
  | none => false
  | some l =>
    if streak ≥ cfg.THRESHOLD then
      if cfg.ALERT_MODE = "EACH" then decide (some l.dt ≠ last_notified_dt)
      else if cfg.ALERT_MODE = "THRESHOLD_ONLY" then decide (prev_streak < cfg.THRESHOLD)
      else decide (some l.dt ≠ last_notified_dt)
    else false

/-- The local `last_checked_dt` of `main` (src line 347). -/
def run_last_checked (cfg : Config) (st : BotState) : Option String :=
  if cfg.FORCE_REBUILD then none else st.last_checked_dt

/-- The local `prev_streak` of `main` (src line 348). -/
def run_prev_streak (cfg : Config) (st : BotState) : Int :=
  if cfg.FORCE_REBUILD then 0 else st.last_streak_len.getD 0

/-- The `base_streak` expression shared by both paths (src lines 373, 428):
rebuild from zero when forcing or when no truthy watermark exists. -/
def run_base_streak (cfg : Config) (st : BotState) : Int :=
  if cfg.FORCE_REBUILD || !pyTruthy (run_last_checked cfg st) then 0
  else run_prev_streak cfg st

/-- The `(streak, last)` pair computed by either path of `main` from the
fetched list (src lines 374, 428). -/
def computed_streak (cfg : Config) (st : BotState) (ms : List MatchRecord) :
    Int × Option MatchRecord :=
  apply_new_matches_to_streak (run_base_streak cfg st) ms

/-- The fallback section of `main` (src lines 424-454), entered directly
when no API key is set and after any exception caught at src line 421.
`cur` is the dict held by `main` at entry (it may already carry API-path
writes of this run); `last_checked_dt`, `prev_streak` and `last_notified_dt` are the
locals bound at src lines 347-349 from the state as loaded. Src line 436
checks the guard only after persisting the raw streak at lines 431-432, so
the fallback guard path stores the unclamped value. Exceptions raised
inside the fallback `try` (fetch, parse, and the Telegram POST alike) are
caught at src line 450. With the fallback disabled nothing further is
written, and no `last_full_run_ts` stamp is taken. -/
def main_fallback (cfg : Config) (env : RunEnv) (cur : BotState)
    (last_checked_dt : Option String) (prev_streak : Int)
    (last_notified_dt : Option String) (sends0 : Nat) : RunResult :=
  if cfg.USE_SCRAPE_FALLBACK then
    match env.scrapeOutcome with
    | .error _ => ⟨cur, sends0, false⟩
    | .ok (ms, _src) =>
      let base : Int :=
        if cfg.FORCE_REBUILD || !pyTruthy last_checked_dt then 0 else prev_streak
      let streak := (apply_new_matches_to_streak base ms).1
      let st1 : BotState :=
        match ms.getLast? with
        | some m => { cur with last_checked_dt := some m.dt }
        | none => cur
      let st2 : BotState := { st1 with last_streak_len := some streak }
      if streak > cfg.MAX_REASONABLE_STREAK then
        ⟨{ st2 with last_full_run_ts := some env.now }, sends0, false⟩
      else
        let notify : Bool :=
          match ms.getLast? with
          | none => false
          | some m =>
            decide (streak ≥ cfg.THRESHOLD) &&
            (!pyTruthy last_notified_dt || decide (some m.dt ≠ last_notified_dt))
        if notify then
          if send_telegram_raises cfg env.sendFails then ⟨st2, sends0 + 1, false⟩
          else
            let st3 : BotState :=
              match ms.getLast? with
              | some m => { st2 with last_notified_dt := some m.dt }
              | none => st2
            ⟨{ st3 with last_full_run_ts := some env.now }, sends0 + 1, false⟩
        else ⟨{ st2 with last_full_run_ts := some env.now }, sends0, false⟩
  else ⟨cur, sends0, false⟩

/-- The API-path body of `main` after a successful fetch (src lines
372-420). The guard branch (lines 377-387) persists
`min(streak, MAX_REASONABLE_STREAK)`, advances the watermark when matches
arrived, stamps the run, and returns without notifying. Otherwise the
streak and watermark are persisted (lines 390-393) before any delivery
attempt; a failing `send_telegram` raises a `RequestException` that the
broad `except` at line 421 catches, after which control reaches the
fallback section with the state already saved. -/
def api_branch (cfg : Config) (st : BotState) (env : RunEnv)
    (new_matches : List MatchRecord) : RunResult :=
  let streak := (computed_streak cfg st new_matches).1
  let last := (computed_streak cfg st new_matches).2
  let st1 : BotState :=
    match new_matches.getLast? with
    | some m => { st with last_checked_dt := some m.dt }
    | none => st
  if streak > cfg.MAX_REASONABLE_STREAK then
    ⟨{ st1 with
        last_streak_len := some (min streak cfg.MAX_REASONABLE_STREAK)
        last_full_run_ts := some env.now }, 0, false⟩
  else
    let st2 : BotState := { st1 with last_streak_len := some streak }
    if should_notify cfg streak last (run_prev_streak cfg st) st.last_notified_dt then
      if send_telegram_raises cfg env.sendFails then
        main_fallback cfg env st2 (run_last_checked cfg st) (run_prev_streak cfg st)
          st.last_notified_dt 1
      else
        match last with
        | some l =>
          ⟨{ st2 with
              last_notified_dt := some l.dt
              last_full_run_ts := some env.now }, 1, false⟩
        | none => ⟨{ st2 with last_full_run_ts := some env.now }, 1, false⟩
    else ⟨{ st2 with last_full_run_ts := some env.now }, 0, false⟩

/-- Model of `main` (src lines 339-454) over the modelled effect space: interval
guard, then the API path when a key is configured (any exception inside its
`try` — league lookup, fetch, or Telegram delivery — drops into the
fallback section), else the fallback section directly. -/
def main_run (cfg : Config) (st : BotState) (env : RunEnv) : RunResult :=
  if guard_min_interval cfg st env.now then ⟨st, 0, false⟩
  else if cfg.has_api_key then
    match env.apiOutcome with
    | .ok new_matches => api_branch cfg st env new_matches
    | .error _ =>
      main_fallback cfg env st (run_last_checked cfg st) (run_prev_streak cfg st)
        st.last_notified_dt 0
  else
    main_fallback cfg env st (run_last_checked cfg st) (run_prev_streak cfg st)
      st.last_notified_dt 0

/-- C3: under `ALERT_MODE=EACH`, with a last-match reference present, a
notification fires exactly when the streak reaches the threshold and the
timestamp of the last match differs from the persisted `last_notified_dt`; and
two successive decisions on the same last-match timestamp, the first
persisting `last_notified_dt` on firing, fire at most once. -/
theorem each_mode_notify_spec :
    (∀ (cfg : Config) (streak : Int) (l : MatchRecord) (prev : Int)
        (lnd : Option String), cfg.ALERT_MODE = "EACH" →
      (should_notify cfg streak (some l) prev lnd = true ↔
        streak ≥ cfg.THRESHOLD ∧ some l.dt ≠ lnd))
    ∧ (∀ (cfg : Config) (s1 s2 : Int) (l1 l2 : MatchRecord) (p1 p2 : Int)
        (lnd : Option String), cfg.ALERT_MODE = "EACH" → l2.dt = l1.dt →
      ¬(should_notify cfg s1 (some l1) p1 lnd = true ∧
        should_notify cfg s2 (some l2) p2
          (if should_notify cfg s1 (some l1) p1 lnd then some l1.dt else lnd)
          = true)) := by
  have hiff : ∀ (cfg : Config) (streak : Int) (l : MatchRecord) (prev : Int)
      (lnd : Option String), cfg.ALERT_MODE = "EACH" →
      (should_notify cfg streak (some l) prev lnd = true ↔
        streak ≥ cfg.THRESHOLD ∧ some l.dt ≠ lnd) := by
    intro cfg streak l prev lnd h
    unfold should_notify
    rw [h]
    by_cases ht : streak ≥ cfg.THRESHOLD <;> simp [ht]
  refine ⟨hiff, ?_⟩
  intro cfg s1 s2 l1 l2 p1 p2 lnd h hdt ⟨h1, h2⟩
  rw [h1] at h2
  simp only [if_pos] at h2
  have := (hiff cfg s2 l2 p2 (some l1.dt) h).mp h2
  exact this.2 (by rw [hdt])

/-- Config with each-advance alerting, used in witnesses. -/
def cfgEach : Config := ⟨7, "EACH", 100, false, false, false, 25, true, true⟩

theorem each_mode_notify_spec_witness :
    should_notify cfgEach 7 (some matchB) 6 none = true ∧
    ¬(should_notify cfgEach 7 (some matchB) 6 none = true ∧
      should_notify cfgEach 8 (some matchB) 7
        (if should_notify cfgEach 7 (some matchB) 6 none then some matchB.dt
         else none) = true) := by
  constructor
  · exact (each_mode_notify_spec.1 cfgEach 7 matchB 6 none rfl).mpr
      ⟨by decide, by decide⟩
  · exact each_mode_notify_spec.2 cfgEach 7 8 matchB matchB 6 7 none rfl rfl

/-- C4: under `ALERT_MODE=THRESHOLD_ONLY` a notification fires exactly when
the new streak is at or above the threshold, the last-match reference is
present, and the previous persisted streak was strictly below the
threshold. -/
theorem threshold_only_notify_spec :
    ∀ (cfg : Config) (streak : Int) (last : Option MatchRecord) (prev : Int)
      (lnd : Option String), cfg.ALERT_MODE = "THRESHOLD_ONLY" →
      (should_notify cfg streak last prev lnd = true ↔
        streak ≥ cfg.THRESHOLD ∧ last ≠ none ∧ prev < cfg.THRESHOLD) := by
  intro cfg streak last prev lnd h
  cases last with
  | none => simp [should_notify]
  | some l =>
    unfold should_notify
    rw [h]
    have hne : ("THRESHOLD_ONLY" : String) ≠ "EACH" := by decide
    by_cases ht : streak ≥ cfg.THRESHOLD <;> simp [hne, ht]

/-- Config with threshold-once alerting, used in witnesses. -/
def cfgThr : Config := ⟨2, "THRESHOLD_ONLY", 100, false, false, false, 25, true, true⟩

theorem threshold_only_notify_spec_witness :
    should_notify cfgThr 2 (some matchB) 1 none = true :=
  (threshold_only_notify_spec cfgThr 2 (some matchB) 1 none rfl).mpr
    ⟨by decide, by decide, by decide⟩

/-- C8: for any `ALERT_MODE` other than the two documented values, the
notification decision coincides with the each-advance decision. -/
theorem unknown_alert_mode_defaults_to_each :
    ∀ (cfg : Config) (streak : Int) (last : Option MatchRecord) (prev : Int)
      (lnd : Option String),
      cfg.ALERT_MODE ≠ "EACH" → cfg.ALERT_MODE ≠ "THRESHOLD_ONLY" →
      should_notify cfg streak last prev lnd =
        should_notify { cfg with ALERT_MODE := "EACH" } streak last prev lnd := by
  intro cfg streak last prev lnd h1 h2
  cases last with
  | none => rfl
  | some l =>
    unfold should_notify
    simp [h1, h2]

/-- Config with an unrecognized alert mode, used in witnesses. -/
def cfgOdd : Config := ⟨7, "BOTH", 100, false, false, false, 25, true, true⟩

theorem unknown_alert_mode_defaults_to_each_witness :
    should_notify cfgOdd 7 (some matchA) 0 none =
      should_notify { cfgOdd with ALERT_MODE := "EACH" } 7 (some matchA) 0 none :=
  unknown_alert_mode_defaults_to_each cfgOdd 7 (some matchA) 0 none
    (by decide) (by decide)

/-- C2 amended: when the computed streak exceeds `MAX_REASONABLE_STREAK`,
both paths make no notification call, advance the watermark to the newest
fetched match, and stamp the run; the structured-API path persists the
ceiling `min(streak, MAX_REASONABLE_STREAK)`, but the scrape-fallback path
persists the raw computed streak unclamped. -/
theorem streak_guard_spec :
    (∀ (cfg : Config) (st : BotState) (env : RunEnv) (nm : List MatchRecord)
        (m : MatchRecord),
      guard_min_interval cfg st env.now = false →
      cfg.has_api_key = true →
      env.apiOutcome = .ok nm →
      nm.getLast? = some m →
      (computed_streak cfg st nm).1 > cfg.MAX_REASONABLE_STREAK →
      main_run cfg st env =
        ⟨{ st with
            last_checked_dt := some m.dt
            last_streak_len := some cfg.MAX_REASONABLE_STREAK
            last_full_run_ts := some env.now }, 0, false⟩)
    ∧ (∀ (cfg : Config) (st : BotState) (env : RunEnv) (ms : List MatchRecord)
        (src : String) (m : MatchRecord),
      guard_min_interval cfg st env.now = false →
      cfg.has_api_key = false →
      cfg.USE_SCRAPE_FALLBACK = true →
      env.scrapeOutcome = .ok (ms, src) →
      ms.getLast? = some m →
      (computed_streak cfg st ms).1 > cfg.MAX_REASONABLE_STREAK →
      main_run cfg st env =
        ⟨{ st with
            last_checked_dt := some m.dt
            last_streak_len := some (computed_streak cfg st ms).1
            last_full_run_ts := some env.now }, 0, false⟩) := by
  constructor
  · intro cfg st env nm m hguard hkey hapi hlast hgt
    have hmin : min (computed_streak cfg st nm).1 cfg.MAX_REASONABLE_STREAK =
        cfg.MAX_REASONABLE_STREAK := min_eq_right (le_of_lt hgt)
    simp [main_run, api_branch, hguard, hkey, hapi, hlast, hgt, hmin]
  · intro cfg st env ms src m hguard hkey hfb hscrape hlast hgt
    simp [main_run, main_fallback, hguard, hkey, hfb, hscrape, hlast,
      computed_streak, run_base_streak] at hgt ⊢
    simp [hgt]

/-- Scrape-path run tripping the guard: fallback enabled, no API key, two
non-draw matches against a ceiling of 1. -/
def cfgGuardCex : Config := ⟨7, "EACH", 100, false, true, false, 1, true, false⟩

/-- Effects for the scrape-path guard run. -/
def envGuardCex : RunEnv :=
  ⟨0, .ok [], false, .ok ([matchA, matchB], "http://example")⟩

/-- C2 counterexample: on the scrape-fallback path the guard run persists
the raw streak 2, not the ceiling 1, refuting "persists a streak value
equal to the ceiling ... on both paths". -/
theorem streak_guard_clamp_cex :
    (main_run cfgGuardCex emptyState envGuardCex).file.last_streak_len = some 2 ∧
    cfgGuardCex.MAX_REASONABLE_STREAK = 1 ∧
    (main_run cfgGuardCex emptyState envGuardCex).sends = 0 := by
  decide

/-- API-path run tripping the guard: ceiling 1, two non-draw matches. -/
def cfgApiGuard : Config := ⟨7, "EACH", 100, false, false, false, 1, true, true⟩

/-- Effects for the API-path guard run. -/
def envApiGuard : RunEnv := ⟨5, .ok [matchA, matchB], false, .error 0⟩

theorem streak_guard_spec_witness :
    main_run cfgApiGuard emptyState envApiGuard =
      ⟨⟨some matchB.dt, some 1, none, some 5, none⟩, 0, false⟩ ∧
    main_run cfgGuardCex emptyState envGuardCex =
      ⟨⟨some matchB.dt, some 2, none, some 0, none⟩, 0, false⟩ := by
  constructor
  · exact (streak_guard_spec.1 cfgApiGuard emptyState envApiGuard
      [matchA, matchB] matchB rfl rfl rfl (by decide) (by decide)).trans (by decide)
  · exact (streak_guard_spec.2 cfgGuardCex emptyState envGuardCex
      [matchA, matchB] "http://example" matchB rfl rfl rfl rfl (by decide)
      (by decide)).trans (by decide)

/-- Config for the failing-delivery runs: threshold 1, each-advance,
fallback disabled, real credentials, not a dry run. -/
def cfgSend : Config := ⟨1, "EACH", 100, false, false, false, 25, true, true⟩

/-- Effects where the Telegram POST fails. -/
def envSendFail : RunEnv := ⟨5, .ok [matchA], true, .error 0⟩

/-- C7 counterexample: the Telegram POST fails (`send_telegram` raises,
one delivery attempt is made), yet no exception escapes `main` — the error
is caught by the broad `except` of the API path, refuting "the error
propagates to the caller of the run". -/
theorem notifier_error_not_propagated_cex :
    send_telegram_raises cfgSend envSendFail.sendFails = true ∧
    (main_run cfgSend emptyState envSendFail).sends = 1 ∧
    (main_run cfgSend emptyState envSendFail).raised = false := by
  decide

/-- C7 amended: a failing delivery does not propagate to the caller of
`main` —
it is caught at the end of the API `try` block and the run returns normally
(with the scrape fallback disabled, nothing further happens). The run has
already persisted the computed streak and the advanced watermark before the
delivery attempt, so they are not lost; `last_notified_dt` and
`last_full_run_ts` are left unwritten. -/
theorem notifier_error_state_persisted :
    ∀ (cfg : Config) (st : BotState) (env : RunEnv) (nm : List MatchRecord)
      (m : MatchRecord),
      guard_min_interval cfg st env.now = false →
      cfg.has_api_key = true →
      cfg.USE_SCRAPE_FALLBACK = false →
      env.apiOutcome = .ok nm →
      nm.getLast? = some m →
      ¬((computed_streak cfg st nm).1 > cfg.MAX_REASONABLE_STREAK) →
      should_notify cfg (computed_streak cfg st nm).1 (computed_streak cfg st nm).2
        (run_prev_streak cfg st) st.last_notified_dt = true →
      send_telegram_raises cfg env.sendFails = true →
      main_run cfg st env =
        ⟨{ st with
            last_checked_dt := some m.dt
            last_streak_len := some (computed_streak cfg st nm).1 }, 1, false⟩ := by
  intro cfg st env nm m hguard hkey hfb hapi hlast hle hnotify hraise
  simp [main_run, api_branch, main_fallback, hguard, hkey, hfb, hapi, hlast,
    hle, hnotify, hraise]

theorem notifier_error_state_persisted_witness :
    main_run cfgSend emptyState envSendFail =
      ⟨⟨some matchA.dt, some 1, none, none, none⟩, 1, false⟩ :=
  (notifier_error_state_persisted cfgSend emptyState envSendFail [matchA] matchA
    rfl rfl rfl rfl (by decide) (by decide) (by decide) rfl).trans (by decide)

/-- C9: a successful API run with zero new matches and no guard trip leaves
`last_checked_dt`, `last_notified_dt` and the cached league id untouched,
rewrites `last_streak_len` with its unchanged prior value, stamps
`last_full_run_ts`, and (since no match reference exists) cannot notify, so
`last_notified_dt` is not written. -/
theorem api_zero_new_matches_frame :
    ∀ (cfg : Config) (st : BotState) (env : RunEnv) (w : String) (p : Int),
      guard_min_interval cfg st env.now = false →
      cfg.has_api_key = true →
      cfg.FORCE_REBUILD = false →
      env.apiOutcome = .ok [] →
      st.last_checked_dt = some w →
      w ≠ "" →
      st.last_streak_len = some p →
      ¬(p > cfg.MAX_REASONABLE_STREAK) →
      main_run cfg st env =
        ⟨{ st with
            last_streak_len := some p
            last_full_run_ts := some env.now }, 0, false⟩ := by
  intro cfg st env w p hguard hkey hforce hapi hwm hw hprev hle
  have hstreak : (computed_streak cfg st []).1 = p := by
    simp [computed_streak, apply_new_matches_to_streak, run_base_streak,
      run_last_checked, run_prev_streak, hforce, hwm, hprev, pyTruthy, hw]
  have hlast : (computed_streak cfg st []).2 = none := rfl
  simp [main_run, api_branch, hguard, hkey, hapi, hstreak, hlast, hle,
    should_notify]

/-- Prior state for the zero-new-matches frame witness. -/
def stFrame : BotState :=
  ⟨some "2024-08-02T20:30:00+00:00", some 4, some "2024-08-01T18:00:00+00:00",
   some 0, some 106⟩

/-- Effects for the zero-new-matches frame witness. -/
def envFrame : RunEnv := ⟨7000, .ok [], false, .error 0⟩

theorem api_zero_new_matches_frame_witness :
    main_run cfgEach stFrame envFrame =
      ⟨⟨some "2024-08-02T20:30:00+00:00", some 4, some "2024-08-01T18:00:00+00:00",
        some 7000, some 106⟩, 0, false⟩ :=
  (api_zero_new_matches_frame cfgEach stFrame envFrame
    "2024-08-02T20:30:00+00:00" 4 (by decide) rfl rfl rfl rfl (by decide) rfl
    (by decide)).trans (by decide)

end EkstraStreak
